import Mathlib

/-!
Shallow embedding of the AR measuring application (`src/script.js`).

The application keeps module-level mutable state: a list `points` of captured
points (each owning a marker mesh added to the scene), a `measurementLine`,
a `measureUnit` string, the reticle (visibility + matrix), the hit-test
source flags, and a handful of DOM labels.  We model that state as a single
structure `AppState` and each event handler of the script as a state
transformer.  Scene membership of meshes is modelled by a list of mesh
handles (`Nat` ids); `THREE.Scene.add` appends a handle and
`THREE.Scene.remove` erases its first occurrence.  Real-number coordinates
model the JS floats; `toFixed(2)` is modelled by rounding to a multiple of
1/100 (values such as `"39.37"` are represented by the real `39.37`).
-/

namespace ARMeasure

/-- A 3D position, as in `THREE.Vector3` (x, y, z in meters). -/
structure Vec3 where
  x : ℝ
  y : ℝ
  z : ℝ

/-- A three.js 4x4 matrix, column-major array of 16 floats
(`reticle.matrix`, `hit.getPose(referenceSpace).transform.matrix`). -/
def Matrix4 : Type := Fin 16 → ℝ

/-- Extract the translation of a column-major 4x4 matrix
(`Vector3.setFromMatrixPosition`: elements 12, 13, 14). -/
def setFromMatrixPosition (m : Matrix4) : Vec3 :=
  ⟨m 12, m 13, m 14⟩

/-- One entry of the `points` array: `{ mesh: mesh, vec: mesh.position.clone() }`.
The mesh is modelled by its scene handle. -/
structure CapturedPoint where
  mesh : Nat
  vec : Vec3

/-- three.js `Vector3.distanceTo`: Euclidean distance. -/
noncomputable def Vec3.distanceTo (a b : Vec3) : ℝ :=
  Real.sqrt ((a.x - b.x) ^ 2 + (a.y - b.y) ^ 2 + (a.z - b.z) ^ 2)

/-- JS `Number.prototype.toFixed(2)`, as the real value displayed:
round to the nearest multiple of 1/100 (JS rounds half away from zero;
on the nonnegative values occurring here this is `round`). -/
noncomputable def toFixed2 (x : ℝ) : ℝ :=
  (round (x * 100) : ℤ) / 100

/-- Displayed coordinate triple of `formatCoord`: each component through
`toFixed(2)`. -/
noncomputable def formatCoord (v : Vec3) : Vec3 :=
  ⟨toFixed2 v.x, toFixed2 v.y, toFixed2 v.z⟩

/-- The whole module-level mutable state of `script.js` (plus the DOM bits it
writes).  `distLabel` holds the displayed distance as a real number
(`"0.00"` is `0`); `p1Label`/`p2Label` hold the displayed coordinate triple,
`none` standing for the `"---"` placeholder. -/
structure AppState where
  points : List CapturedPoint
  sceneMeshes : List Nat
  measurementLine : Option Nat
  nextId : Nat
  measureUnit : String
  reticleVisible : Bool
  reticleMatrix : Matrix4
  hitTestSource : Bool
  hitTestSourceRequested : Bool
  distLabel : ℝ
  instructionText : String
  actionBtnText : String
  actionBtnDisabled : Bool
  actionBtnOpacity : ℚ
  p1Label : Option Vec3
  p2Label : Option Vec3
  introScreenVisible : Bool
  uiDivVisible : Bool

/-- The `switch (measureUnit)` body of `calculateDistance`: `displayValue`
starts at 0 and is multiplied-in only for the four recognised unit strings. -/
noncomputable def displayValue (distanceMeters : ℝ) (measureUnit : String) : ℝ :=
  if measureUnit = "m" then distanceMeters
  else if measureUnit = "cm" then distanceMeters * 100
  else if measureUnit = "in" then distanceMeters * 39.3701
  else if measureUnit = "ft" then distanceMeters * 3.28084
  else 0

/-- `calculateDistance()`: with fewer than 2 points the label shows `"0.00"`;
with 2 points it shows the unit-converted `points[0].vec.distanceTo(points[1].vec)`
through `toFixed(2)`. -/
noncomputable def calculateDistance (s : AppState) : AppState :=
  if s.points.length < 2 then { s with distLabel := 0 }
  else
    match s.points with
    | p0 :: p1 :: _ =>
        { s with distLabel := toFixed2 (displayValue (p0.vec.distanceTo p1.vec) s.measureUnit) }
    | _ => s

/-- `drawLine()`: with 2 points, build the line and add it to the scene. -/
def drawLine (s : AppState) : AppState :=
  if s.points.length < 2 then s
  else
    { s with
      sceneMeshes := s.sceneMeshes ++ [s.nextId]
      measurementLine := some s.nextId
      nextId := s.nextId + 1 }

/-- `updateUIState()`: branches on `points.length === 1` / `=== 2`. -/
noncomputable def updateUIState (s : AppState) : AppState :=
  match s.points with
  | [p1] =>
      { s with
        actionBtnText := "Set Point 2"
        instructionText := "Move camera to target. Tap \x27Set Point 2\x27."
        p1Label := some (formatCoord p1.vec) }
  | [_, p2] =>
      calculateDistance (drawLine
        { s with
          actionBtnText := "Complete"
          actionBtnDisabled := true
          actionBtnOpacity := 1 / 2
          instructionText := "Measurement Complete."
          p2Label := some (formatCoord p2.vec) })
  | _ => s

/-- `onSelect()`: the single user-action entry point (tap gesture and the
HTML action button both call it).  Captures a point only while the reticle
is visible and fewer than 2 points exist. -/
noncomputable def onSelect (s : AppState) : AppState :=
  if s.reticleVisible then
    if 2 ≤ s.points.length then s
    else
      updateUIState
        { s with
          points := s.points ++ [⟨s.nextId, setFromMatrixPosition s.reticleMatrix⟩]
          sceneMeshes := s.sceneMeshes ++ [s.nextId]
          nextId := s.nextId + 1 }
  else s

/-- `resetMeasurement()`: remove every point marker and the line from the
scene, empty the points array, and restore the initial UI strings. -/
def resetMeasurement (s : AppState) : AppState :=
  let scene1 := s.points.foldl (fun sc p => sc.erase p.mesh) s.sceneMeshes
  let scene2 :=
    match s.measurementLine with
    | some l => scene1.erase l
    | none => scene1
  { s with
    sceneMeshes := scene2
    points := []
    measurementLine := none
    actionBtnText := "Set Point 1"
    actionBtnDisabled := false
    actionBtnOpacity := 1
    instructionText := "Aim at a surface and tap Set Point 1."
    p1Label := none
    p2Label := none
    distLabel := 0 }

/-- The `unitSelect` change handler: store the new unit, recompute. -/
noncomputable def changeUnit (s : AppState) (u : String) : AppState :=
  calculateDistance { s with measureUnit := u }

/-- The session `end` listener (lines 223-229 of `script.js`): clears the
hit-test source state and reverts the UI to the pre-start presentation
(intro screen shown, AR overlay hidden).  It touches nothing else. -/
def sessionEnd (s : AppState) : AppState :=
  { s with
    hitTestSourceRequested := false
    hitTestSource := false
    introScreenVisible := true
    uiDivVisible := false }

/-- The per-frame hit-test processing (lines 235-252 of `script.js`), given
the head of `frame.getHitTestResults(hitTestSource)` as an optional pose
matrix.  Runs only when a hit-test source exists. -/
def renderHitTest (s : AppState) (hit : Option Matrix4) : AppState :=
  if s.hitTestSource then
    match hit with
    | some m =>
        if s.points.length < 2 then
          let s' := { s with reticleVisible := true, reticleMatrix := m }
          if s'.points.length = 0 then
            { s' with instructionText := "Surface detected. Tap \x27Set Point 1\x27." }
          else s'
        else
          { s with reticleVisible := false }
    | none =>
        let s' := { s with reticleVisible := false }
        if s'.points.length < 2 then
          { s' with instructionText := "Aim at floor/wall to detect surface." }
        else s'
  else s

/-- One XR animation frame (the state-relevant part of `render` when a frame
is present): the once-per-session source request sets
`hitTestSourceRequested`, then the hit test runs. -/
def renderFrame (s : AppState) (hit : Option Matrix4) : AppState :=
  renderHitTest
    (if s.hitTestSourceRequested then s else { s with hitTestSourceRequested := true })
    hit

/-- The async `requestHitTestSource` resolution: `hitTestSource = source`. -/
def sourceAcquired (s : AppState) : AppState :=
  { s with hitTestSource := true }

/-- The two event kinds of the measurement core: a tracking frame (with the
optional surface hit) and a user action (tap or button). -/
inductive Event where
  | frameUpdate (hit : Option Matrix4) : Event
  | userAction : Event

/-- Dispatch one event to its handler. -/
noncomputable def step (s : AppState) : Event → AppState
  | Event.frameUpdate hit => renderFrame s hit
  | Event.userAction => onSelect s

/-- Run a sequence of events from a state. -/
noncomputable def run (s : AppState) (es : List Event) : AppState :=
  es.foldl step s

/-! ### Concrete states used by witnesses and counterexamples -/

/-- First captured point of the worked scenario: position (0,0,0), marker 0. -/
def pA : CapturedPoint := ⟨0, ⟨0, 0, 0⟩⟩

/-- Second captured point of the worked scenario: position (1,0,0), marker 1. -/
def pB : CapturedPoint := ⟨1, ⟨1, 0, 0⟩⟩

/-- A zero matrix standing in for an arbitrary pose. -/
def matZero : Matrix4 := fun _ => 0

/-- A mid-session state with no captured point yet. -/
def demoState : AppState :=
  { points := []
    sceneMeshes := []
    measurementLine := none
    nextId := 0
    measureUnit := "m"
    reticleVisible := false
    reticleMatrix := matZero
    hitTestSource := true
    hitTestSourceRequested := true
    distLabel := 0
    instructionText := ""
    actionBtnText := "Set Point 1"
    actionBtnDisabled := false
    actionBtnOpacity := 1
    p1Label := none
    p2Label := none
    introScreenVisible := false
    uiDivVisible := true }

/-- A COMPLETE-phase state: both scenario points captured, both markers in
the scene. -/
def demoComplete : AppState :=
  { demoState with points := [pA, pB], sceneMeshes := [0, 1], nextId := 2 }

/-- The COMPLETE-phase state with a chosen active unit. -/
def demo01 (u : String) : AppState :=
  { demoComplete with measureUnit := u }

/-! ### Basic preservation lemmas -/

theorem calculateDistance_points (s : AppState) :
    (calculateDistance s).points = s.points := by
  unfold calculateDistance
  split
  · rfl
  · split <;> rfl

theorem calculateDistance_measureUnit (s : AppState) :
    (calculateDistance s).measureUnit = s.measureUnit := by
  unfold calculateDistance
  split
  · rfl
  · split <;> rfl

theorem drawLine_points (s : AppState) : (drawLine s).points = s.points := by
  unfold drawLine
  split <;> rfl

theorem updateUIState_points (s : AppState) :
    (updateUIState s).points = s.points := by
  unfold updateUIState
  split
  · rfl
  · rw [calculateDistance_points, drawLine_points]
  · rfl

theorem renderHitTest_points (s : AppState) (hit : Option Matrix4) :
    (renderHitTest s hit).points = s.points := by
  unfold renderHitTest
  dsimp only
  repeat' split
  all_goals rfl

theorem renderFrame_points (s : AppState) (hit : Option Matrix4) :
    (renderFrame s hit).points = s.points := by
  unfold renderFrame
  rw [renderHitTest_points]
  split <;> rfl

theorem onSelect_eq_self (s : AppState)
    (h : s.reticleVisible = false ∨ 2 ≤ s.points.length) :
    onSelect s = s := by
  unfold onSelect
  rcases h with h | h
  · simp [h]
  · split
    · simp [h]
    · rfl

theorem onSelect_points_le (s : AppState) :
    s.points.length ≤ (onSelect s).points.length := by
  unfold onSelect
  split
  · split
    · exact le_rfl
    · rw [updateUIState_points]
      simp
  · exact le_rfl

theorem onSelect_points_le_two (s : AppState) (h : s.points.length ≤ 2) :
    (onSelect s).points.length ≤ 2 := by
  unfold onSelect
  split
  · split
    · exact h
    · next hlt =>
        rw [updateUIState_points]
        simp only [List.length_append, List.length_cons, List.length_nil]
        omega
  · exact h

theorem step_points_le (s : AppState) (e : Event) :
    s.points.length ≤ (step s e).points.length := by
  cases e with
  | frameUpdate hit => rw [step, renderFrame_points]
  | userAction => exact onSelect_points_le s

theorem step_points_le_two (s : AppState) (e : Event) (h : s.points.length ≤ 2) :
    (step s e).points.length ≤ 2 := by
  cases e with
  | frameUpdate hit => rw [step, renderFrame_points]; exact h
  | userAction => exact onSelect_points_le_two s h

theorem run_points_le_two (s : AppState) (es : List Event)
    (h : s.points.length ≤ 2) : (run s es).points.length ≤ 2 := by
  induction es generalizing s with
  | nil => exact h
  | cons e es ih => exact ih (step s e) (step_points_le_two s e h)

theorem run_points_le (s : AppState) (es : List Event) :
    s.points.length ≤ (run s es).points.length := by
  induction es generalizing s with
  | nil => exact le_rfl
  | cons e es ih => exact le_trans (step_points_le s e) (ih (step s e))

/-! ### Claim theorems -/

/-- C1, counterexample: the claim says the session-end signal in COMPLETE
resets the PointSet to length 0 and releases the markers; on the code the
`end` listener leaves both the points array and the scene untouched. -/
theorem sessionEnd_C1_counterexample :
    (sessionEnd demoComplete).points.length = 2 ∧
    (sessionEnd demoComplete).sceneMeshes = demoComplete.sceneMeshes ∧
    ¬ (sessionEnd demoComplete).points.length = 0 := by
  refine ⟨rfl, rfl, ?_⟩
  intro h
  simp [sessionEnd, demoComplete, demoState] at h

/-- C1, amended: the session `end` listener reverts the session-level UI to
its pre-start presentation (intro screen shown, AR overlay hidden) and
clears the hit-test source state, but performs no measurement reset: the
PointSet, the scene markers and the displayed distance are unchanged. -/
theorem sessionEnd_C1_amended (s : AppState) :
    (sessionEnd s).points = s.points ∧
    (sessionEnd s).sceneMeshes = s.sceneMeshes ∧
    (sessionEnd s).distLabel = s.distLabel ∧
    (sessionEnd s).introScreenVisible = true ∧
    (sessionEnd s).uiDivVisible = false ∧
    (sessionEnd s).hitTestSource = false ∧
    (sessionEnd s).hitTestSourceRequested = false :=
  ⟨rfl, rfl, rfl, rfl, rfl, rfl, rfl⟩

/-- C4: a user action with the reticle hidden, or with 2 points already
captured, leaves the entire state (in particular the PointSet and the
displayed distance) unchanged, and so do arbitrary repetitions of it. -/
theorem userAction_noop_C4 (s : AppState)
    (h : s.reticleVisible = false ∨ 2 ≤ s.points.length) :
    onSelect s = s ∧ ∀ n : ℕ, onSelect^[n] s = s :=
  ⟨onSelect_eq_self s h, fun n => Function.iterate_fixed (onSelect_eq_self s h) n⟩

/-- C4 witness: in the concrete COMPLETE state the hypothesis holds and
user actions are no-ops. -/
theorem userAction_noop_C4_witness :
    (demoComplete.reticleVisible = false ∨ 2 ≤ demoComplete.points.length) ∧
    (onSelect demoComplete = demoComplete ∧
      ∀ n : ℕ, onSelect^[n] demoComplete = demoComplete) :=
  ⟨Or.inr (by simp [demoComplete, demoState]),
    userAction_noop_C4 demoComplete (Or.inr (by simp [demoComplete, demoState]))⟩

theorem renderHitTest_visible_some (s : AppState) (m : Matrix4)
    (hsrc : s.hitTestSource = true) (h2 : s.points.length < 2) :
    (renderHitTest s (some m)).reticleVisible = true ∧
    (renderHitTest s (some m)).reticleMatrix = m := by
  unfold renderHitTest
  rw [if_pos hsrc]
  dsimp only
  rw [if_pos h2]
  split <;> exact ⟨rfl, rfl⟩

theorem renderHitTest_hidden_some (s : AppState) (m : Matrix4)
    (hsrc : s.hitTestSource = true) (h2 : ¬ s.points.length < 2) :
    (renderHitTest s (some m)).reticleVisible = false := by
  unfold renderHitTest
  rw [if_pos hsrc]
  dsimp only
  rw [if_neg h2]

theorem renderHitTest_hidden_none (s : AppState)
    (hsrc : s.hitTestSource = true) :
    (renderHitTest s none).reticleVisible = false := by
  unfold renderHitTest
  rw [if_pos hsrc]
  dsimp only
  split <;> rfl

/-- C2: over any sequence of frame updates and user actions (no reset), the
PointSet length stays in {0,1,2}, never decreases, and once it reaches 2 a
further user action is a no-op. -/
theorem pointSet_invariant_C2 (s : AppState) (es : List Event)
    (h : s.points.length ≤ 2) :
    (run s es).points.length ≤ 2 ∧
    s.points.length ≤ (run s es).points.length ∧
    ((run s es).points.length = 2 → onSelect (run s es) = run s es) :=
  ⟨run_points_le_two s es h, run_points_le s es,
    fun h2 => onSelect_eq_self (run s es) (Or.inr (le_of_eq h2.symm))⟩

/-- C2 witness: a concrete two-event trace (one frame with a hit, one user
action) from the empty mid-session state keeps the invariant. -/
theorem pointSet_invariant_C2_witness :
    demoState.points.length ≤ 2 ∧
    ((run demoState [Event.frameUpdate (some matZero), Event.userAction]).points.length ≤ 2 ∧
     demoState.points.length ≤
       (run demoState [Event.frameUpdate (some matZero), Event.userAction]).points.length ∧
     ((run demoState [Event.frameUpdate (some matZero), Event.userAction]).points.length = 2 →
       onSelect (run demoState [Event.frameUpdate (some matZero), Event.userAction]) =
         run demoState [Event.frameUpdate (some matZero), Event.userAction])) :=
  ⟨by simp [demoState],
    pointSet_invariant_C2 demoState [Event.frameUpdate (some matZero), Event.userAction]
      (by simp [demoState])⟩

/-- C3: when a hit-test source exists, after the per-frame hit-test
processing the reticle is visible exactly when the frame produced a surface
intersection and fewer than 2 points are captured, and in that case its pose
matrix is the intersection's transform. -/
theorem reticle_C3 (s : AppState) (hit : Option Matrix4)
    (hsrc : s.hitTestSource = true) :
    ((renderHitTest s hit).reticleVisible = true ↔
      (∃ m, hit = some m ∧ s.points.length < 2)) ∧
    (∀ m, hit = some m → s.points.length < 2 →
      (renderHitTest s hit).reticleMatrix = m) := by
  constructor
  · constructor
    · intro hv
      cases hit with
      | none =>
          rw [renderHitTest_hidden_none s hsrc] at hv
          exact Bool.noConfusion hv
      | some m =>
          by_cases h2 : s.points.length < 2
          · exact ⟨m, rfl, h2⟩
          · rw [renderHitTest_hidden_some s m hsrc h2] at hv
            exact Bool.noConfusion hv
    · rintro ⟨m, rfl, h2⟩
      exact (renderHitTest_visible_some s m hsrc h2).1
  · rintro m rfl h2
    exact (renderHitTest_visible_some s m hsrc h2).2

/-- C3 witness: in the concrete mid-session state (source acquired, no point
yet) a frame with a hit shows the reticle at the hit's transform. -/
theorem reticle_C3_witness :
    demoState.hitTestSource = true ∧
    (((renderHitTest demoState (some matZero)).reticleVisible = true ↔
       (∃ m, (some matZero : Option Matrix4) = some m ∧ demoState.points.length < 2)) ∧
     (∀ m, (some matZero : Option Matrix4) = some m → demoState.points.length < 2 →
       (renderHitTest demoState (some matZero)).reticleMatrix = m)) :=
  ⟨rfl, reticle_C3 demoState (some matZero) rfl⟩

theorem count_erase_le (a b : ℕ) (l : List ℕ) :
    (l.erase b).count a ≤ l.count a := by
  by_cases hab : a = b
  · subst hab
    rw [List.count_erase_self]
    omega
  · rw [List.count_erase_of_ne hab]

theorem count_foldl_erase_le (ps : List CapturedPoint) (l : List ℕ) (m : ℕ) :
    (ps.foldl (fun sc p => sc.erase p.mesh) l).count m ≤ l.count m := by
  induction ps generalizing l with
  | nil => exact le_rfl
  | cons q ps ih =>
      exact le_trans (ih (l.erase q.mesh)) (count_erase_le m q.mesh l)

theorem count_foldl_erase_eq_zero (ps : List CapturedPoint) (l : List ℕ)
    (m : ℕ) (hm : m ∈ ps.map CapturedPoint.mesh) (h1 : l.count m ≤ 1) :
    (ps.foldl (fun sc p => sc.erase p.mesh) l).count m = 0 := by
  induction ps generalizing l with
  | nil => simp at hm
  | cons q ps ih =>
      rw [List.foldl_cons]
      rw [List.map_cons, List.mem_cons] at hm
      rcases hm with hm | hm
      · subst hm
        have hz : (l.erase q.mesh).count q.mesh = 0 := by
          rw [List.count_erase_self]
          omega
        have := count_foldl_erase_le ps (l.erase q.mesh) q.mesh
        omega
      · exact ih (l.erase q.mesh) hm
          (le_trans (count_erase_le m q.mesh l) h1)

theorem resetMeasurement_sceneMeshes_count (s : AppState) (m : ℕ) :
    (resetMeasurement s).sceneMeshes.count m ≤
      (s.points.foldl (fun sc p => sc.erase p.mesh) s.sceneMeshes).count m := by
  unfold resetMeasurement
  dsimp only
  split
  · exact count_erase_le m _ _
  · exact le_rfl

/-- C8: `resetMeasurement` is safe at every PointSet length (0 included):
it empties the points to length 0, restores the aiming UI (button enabled,
initial instruction) and the `0.00` distance placeholder, and removes every
marker owned by a point from the scene (each scene handle occurring at most
once beforehand, as a scene holds an object at most once). -/
theorem reset_C8 (s : AppState)
    (hcount : ∀ p ∈ s.points, s.sceneMeshes.count p.mesh ≤ 1) :
    (resetMeasurement s).points = [] ∧
    (resetMeasurement s).distLabel = 0 ∧
    (resetMeasurement s).actionBtnDisabled = false ∧
    (resetMeasurement s).instructionText = "Aim at a surface and tap Set Point 1." ∧
    (resetMeasurement s).measurementLine = none ∧
    ∀ p ∈ s.points, (resetMeasurement s).sceneMeshes.count p.mesh = 0 := by
  refine ⟨rfl, rfl, rfl, rfl, rfl, ?_⟩
  intro p hp
  have h1 : (s.points.foldl (fun sc q => sc.erase q.mesh) s.sceneMeshes).count p.mesh = 0 :=
    count_foldl_erase_eq_zero s.points s.sceneMeshes p.mesh
      (List.mem_map_of_mem CapturedPoint.mesh hp) (hcount p hp)
  have h2 := resetMeasurement_sceneMeshes_count s p.mesh
  omega

/-- C8 witness: resetting the concrete COMPLETE state (markers 0 and 1 in
the scene once each) releases both markers and empties the points. -/
theorem reset_C8_witness :
    (∀ p ∈ demoComplete.points, demoComplete.sceneMeshes.count p.mesh ≤ 1) ∧
    ((resetMeasurement demoComplete).points = [] ∧
     (resetMeasurement demoComplete).distLabel = 0 ∧
     (resetMeasurement demoComplete).actionBtnDisabled = false ∧
     (resetMeasurement demoComplete).instructionText = "Aim at a surface and tap Set Point 1." ∧
     (resetMeasurement demoComplete).measurementLine = none ∧
     ∀ p ∈ demoComplete.points, (resetMeasurement demoComplete).sceneMeshes.count p.mesh = 0) :=
  ⟨by decide, reset_C8 demoComplete (by decide)⟩

/-- Embedding of a `Vec3` into Mathlib's Euclidean space on `Fin 3`. -/
noncomputable def toE (v : Vec3) : EuclideanSpace ℝ (Fin 3) :=
  ![v.x, v.y, v.z]

theorem distanceTo_eq_dist (a b : Vec3) :
    a.distanceTo b = dist (toE a) (toE b) := by
  rw [EuclideanSpace.dist_eq]
  unfold Vec3.distanceTo
  congr 1
  rw [Fin.sum_univ_three]
  simp [toE, Real.dist_eq, sq_abs]

/-- Conversion factor of a MeasurementUnit, as the spec's data-model table
gives it: meter 1, centimeter 100, inch 39.3701, foot 3.28084. -/
noncomputable def specUnitFactor (u : String) : ℝ :=
  if u = "m" then 1
  else if u = "cm" then 100
  else if u = "in" then 39.3701
  else if u = "ft" then 3.28084
  else 0

theorem calculateDistance_two (s : AppState) (p q : CapturedPoint)
    (hpq : s.points = [p, q]) :
    (calculateDistance s).distLabel =
      toFixed2 (displayValue (p.vec.distanceTo q.vec) s.measureUnit) := by
  unfold calculateDistance
  rw [hpq]
  rw [if_neg (by simp)]

theorem displayValue_eq_factor (d : ℝ) (u : String)
    (hu : u ∈ (["m", "cm", "in", "ft"] : List String)) :
    displayValue d u = d * specUnitFactor u := by
  have hu4 : u = "m" ∨ u = "cm" ∨ u = "in" ∨ u = "ft" := by simpa using hu
  rcases hu4 with h | h | h | h <;> rw [h] <;> simp [displayValue, specUnitFactor]

/-- C5: with fewer than 2 points `calculateDistance` shows the `0.00`
placeholder (no error); with exactly 2 points and one of the four active
units it shows the Euclidean distance between the two captured positions in
meters, multiplied by the unit's factor and rounded to 2 decimals. -/
theorem engine_C5 (s : AppState) :
    (s.points.length < 2 → (calculateDistance s).distLabel = 0) ∧
    (∀ p q, s.points = [p, q] →
      s.measureUnit ∈ (["m", "cm", "in", "ft"] : List String) →
      (calculateDistance s).distLabel =
        toFixed2 (dist (toE p.vec) (toE q.vec) * specUnitFactor s.measureUnit)) := by
  constructor
  · intro h
    unfold calculateDistance
    rw [if_pos h]
  · intro p q hpq hu
    rw [calculateDistance_two s p q hpq,
      displayValue_eq_factor (p.vec.distanceTo q.vec) s.measureUnit hu,
      distanceTo_eq_dist]

/-- C5 witness: the concrete COMPLETE state in meters instantiates the
2-point branch. -/
theorem engine_C5_witness :
    demoComplete.points = [pA, pB] ∧
    demoComplete.measureUnit ∈ (["m", "cm", "in", "ft"] : List String) ∧
    (calculateDistance demoComplete).distLabel =
      toFixed2 (dist (toE pA.vec) (toE pB.vec) * specUnitFactor demoComplete.measureUnit) :=
  ⟨rfl, by simp [demoComplete, demoState],
    (engine_C5 demoComplete).2 pA pB rfl (by simp [demoComplete, demoState])⟩

theorem demo_distanceTo_one : pA.vec.distanceTo pB.vec = 1 := by
  have h : ((0:ℝ) - 1) ^ 2 + ((0:ℝ) - 0) ^ 2 + ((0:ℝ) - 0) ^ 2 = 1 := by norm_num
  unfold pA pB Vec3.distanceTo
  rw [h, Real.sqrt_one]

/-- C6: the unit switch multiplies the meter distance by the fixed factor of
the chosen unit (1, 100, 39.3701, 3.28084), and for points at (0,0,0) and
(1,0,0) the displayed distance is 1.00 m, 100.00 cm, 39.37 in, 3.28 ft. -/
theorem unitConversion_C6 :
    (∀ x : ℝ, displayValue x "m" = 1 * x ∧ displayValue x "cm" = 100 * x ∧
      displayValue x "in" = 39.3701 * x ∧ displayValue x "ft" = 3.28084 * x) ∧
    (calculateDistance (demo01 "m")).distLabel = 1 ∧
    (calculateDistance (demo01 "cm")).distLabel = 100 ∧
    (calculateDistance (demo01 "in")).distLabel = 39.37 ∧
    (calculateDistance (demo01 "ft")).distLabel = 3.28 := by
  have hm : displayValue 1 "m" = 1 := by
    unfold displayValue
    rw [if_pos rfl]
  have hcm : displayValue 1 "cm" = 100 := by
    unfold displayValue
    rw [if_neg (by decide), if_pos rfl]
    norm_num
  have hin : displayValue 1 "in" = 39.3701 := by
    unfold displayValue
    rw [if_neg (by decide), if_neg (by decide), if_pos rfl]
    norm_num
  have hft : displayValue 1 "ft" = 3.28084 := by
    unfold displayValue
    rw [if_neg (by decide), if_neg (by decide), if_neg (by decide), if_pos rfl]
    norm_num
  refine ⟨?_, ?_, ?_, ?_, ?_⟩
  · intro x
    refine ⟨?_, ?_, ?_, ?_⟩ <;> simp [displayValue] <;> ring
  · rw [calculateDistance_two _ pA pB rfl, demo_distanceTo_one]
    show toFixed2 (displayValue 1 "m") = 1
    rw [hm]
    norm_num [toFixed2, round_eq]
  · rw [calculateDistance_two _ pA pB rfl, demo_distanceTo_one]
    show toFixed2 (displayValue 1 "cm") = 100
    rw [hcm]
    norm_num [toFixed2, round_eq]
  · rw [calculateDistance_two _ pA pB rfl, demo_distanceTo_one]
    show toFixed2 (displayValue 1 "in") = 39.37
    rw [hin]
    norm_num [toFixed2, round_eq]
  · rw [calculateDistance_two _ pA pB rfl, demo_distanceTo_one]
    show toFixed2 (displayValue 1 "ft") = 3.28
    rw [hft]
    norm_num [toFixed2, round_eq]

/-- C7: changing the active unit with 2 captured points recomputes the
displayed distance from the same two stored points and leaves the PointSet
(hence both captured positions) unchanged. -/
theorem unitChange_C7 (s : AppState) (u : String) (p q : CapturedPoint)
    (h : s.points = [p, q]) :
    (changeUnit s u).points = s.points ∧
    (changeUnit s u).measureUnit = u ∧
    (changeUnit s u).distLabel =
      toFixed2 (displayValue (p.vec.distanceTo q.vec) u) := by
  unfold changeUnit
  refine ⟨?_, ?_, ?_⟩
  · rw [calculateDistance_points]
  · rw [calculateDistance_measureUnit]
  · exact calculateDistance_two { s with measureUnit := u } p q h

/-- C7 witness: switching the concrete COMPLETE state from meters to
centimeters. -/
theorem unitChange_C7_witness :
    demoComplete.points = [pA, pB] ∧
    ((changeUnit demoComplete "cm").points = demoComplete.points ∧
     (changeUnit demoComplete "cm").measureUnit = "cm" ∧
     (changeUnit demoComplete "cm").distLabel =
       toFixed2 (displayValue (pA.vec.distanceTo pB.vec) "cm")) :=
  ⟨rfl, unitChange_C7 demoComplete "cm" pA pB rfl⟩

/-- C10: with an active unit outside the four enumerated strings, the
switch's missing default branch leaves the display value at its initial 0,
so the label shows `0.00` even with 2 captured points. -/
theorem unknownUnit_C10 (s : AppState) (p q : CapturedPoint)
    (hpq : s.points = [p, q])
    (hu : s.measureUnit ∉ (["m", "cm", "in", "ft"] : List String)) :
    (calculateDistance s).distLabel = 0 := by
  rw [calculateDistance_two s p q hpq]
  have h1 : s.measureUnit ≠ "m" := fun hh => hu (by simp [hh])
  have h2 : s.measureUnit ≠ "cm" := fun hh => hu (by simp [hh])
  have h3 : s.measureUnit ≠ "in" := fun hh => hu (by simp [hh])
  have h4 : s.measureUnit ≠ "ft" := fun hh => hu (by simp [hh])
  unfold displayValue
  rw [if_neg h1, if_neg h2, if_neg h3, if_neg h4]
  norm_num [toFixed2, round_eq]

/-- C10 witness: the unit string `yd` with the two scenario points captured
displays 0. -/
theorem unknownUnit_C10_witness :
    (demo01 "yd").points = [pA, pB] ∧
    (demo01 "yd").measureUnit ∉ (["m", "cm", "in", "ft"] : List String) ∧
    (calculateDistance (demo01 "yd")).distLabel = 0 :=
  ⟨rfl, by simp [demo01, demoComplete, demoState],
    unknownUnit_C10 (demo01 "yd") pA pB rfl (by simp [demo01, demoComplete, demoState])⟩

/-- C9: the computed distance is order-independent,
`distance(A,B) = distance(B,A)`. -/
theorem distance_symm_C9 (a b : Vec3) : a.distanceTo b = b.distanceTo a := by
  unfold Vec3.distanceTo
  ring_nf

end ARMeasure
